import Mathlib

/- Verification of the score-calculation core of the power-transitions
   dashboard.

   The JavaScript source is shallowly embedded: dynamically-typed raw field
   values become the inductive type RawValue, JavaScript numbers are modelled
   as exact rationals, and the JavaScript string/number primitives the source
   uses (trim, toLowerCase, includes, parseInt, parseFloat, Math.round,
   Math.min, Math.max, toFixed) are given executable Lean models restricted
   to the ASCII inputs the dashboard handles. -/

/-- Model of a dynamically-typed raw field value coming from a spreadsheet
    or a form: JavaScript undefined, null, a finite number, or a
    string. Numbers are modelled as exact rationals. -/
inductive RawValue where
  | undef : RawValue
  | jsNull : RawValue
  | num : ℚ → RawValue
  | str : String → RawValue
deriving DecidableEq

/-- ASCII whitespace recognised by the model of the JavaScript trim. -/
def isWS (c : Char) : Bool :=
  c == ' ' || c == '\t' || c == '\n' || c == '\r'

/-- Drops the leading whitespace of a character list. -/
def dropLeadingWS : List Char → List Char
  | [] => []
  | c :: cs => if isWS c then dropLeadingWS cs else c :: cs

/-- Model of the JavaScript String.prototype.trim: leading and trailing
    ASCII whitespace removed. -/
def jsTrim (s : String) : String :=
  String.mk ((dropLeadingWS (dropLeadingWS s.data).reverse).reverse)

/-- ASCII lower-casing of one character, as toLowerCase acts on the ASCII
    range the dashboard data uses. -/
def lowerChar (c : Char) : Char :=
  if 'A' ≤ c ∧ c ≤ 'Z' then Char.ofNat (c.toNat + 32) else c

/-- Model of the JavaScript String.prototype.toLowerCase on ASCII data. -/
def jsToLower (s : String) : String :=
  String.mk (s.data.map lowerChar)

/-- Does the needle occur at the head of the haystack. -/
def leadsWith : List Char → List Char → Bool
  | [], _ => true
  | _ :: _, [] => false
  | a :: as, b :: bs => a == b && leadsWith as bs

/-- Does the haystack contain the needle as a contiguous run. -/
def hasSubList : List Char → List Char → Bool
  | [], needle => needle.isEmpty
  | h :: t, needle => leadsWith needle (h :: t) || hasSubList t needle

/-- Model of the JavaScript String.prototype.includes. -/
def strContains (s pat : String) : Bool :=
  hasSubList s.data pat.data

/-- Numeric value of a decimal digit character. -/
def digitVal (c : Char) : ℕ := c.toNat - 48

/-- Reads a maximal run of decimal digits: value, digit count, rest. -/
def takeDigits : List Char → ℕ × ℕ × List Char
  | [] => (0, 0, [])
  | c :: cs =>
    if c.isDigit then
      let r := takeDigits cs
      (digitVal c * 10 ^ r.2.1 + r.1, r.2.1 + 1, r.2.2)
    else (0, 0, c :: cs)

/-- Reads an optional sign: whether negative, and the rest. -/
def takeSign : List Char → Bool × List Char
  | '-' :: r => (true, r)
  | '+' :: r => (false, r)
  | cs => (false, cs)

/-- Model of the JavaScript parseFloat on a string: leading whitespace is
    skipped, an optional sign, integer digits, an optional fraction and an
    optional exponent are read, trailing garbage is ignored, and the result
    is NaN (here: none) when no digit was read. The non-finite special
    spellings such as Infinity are outside the model. -/
def jsParseFloat (s : String) : Option ℚ :=
  let cs := dropLeadingWS s.data
  let sg := takeSign cs
  let ip := takeDigits sg.2
  let fr := match ip.2.2 with
    | '.' :: r => takeDigits r
    | _ => ((0 : ℕ), (0 : ℕ), ip.2.2)
  if ip.2.1 == 0 && fr.2.1 == 0 then none
  else
    let mant : ℚ := (ip.1 : ℚ) + (fr.1 : ℚ) / (10 : ℚ) ^ fr.2.1
    let v : ℚ :=
      match fr.2.2 with
      | 'e' :: r | 'E' :: r =>
        let esg := takeSign r
        let ed := takeDigits esg.2
        if ed.2.1 == 0 then mant
        else if esg.1 then mant / (10 : ℚ) ^ ed.1 else mant * (10 : ℚ) ^ ed.1
      | _ => mant
    some (if sg.1 then -v else v)

/-- Model of the JavaScript parseInt on a string with no radix argument:
    leading whitespace skipped, optional sign, maximal run of decimal
    digits, none when no digit was read. Hexadecimal prefixes do not occur
    in the dashboard data and are outside the model. -/
def jsParseInt (s : String) : Option ℤ :=
  let cs := dropLeadingWS s.data
  let sg := takeSign cs
  let ds := takeDigits sg.2
  if ds.2.1 == 0 then none
  else some (if sg.1 then -(ds.1 : ℤ) else (ds.1 : ℤ))

/-- Model of parseInt applied to a JavaScript number: the number is first
    converted to its decimal string and the leading integer part is parsed,
    which truncates toward zero. Inputs so extreme that their string form
    uses exponent notation are outside the model. -/
def jsTruncOfNum (q : ℚ) : ℤ := q.num / (q.den : ℤ)

/-- Mathematical floor of a rational, via flooring integer division. -/
def ratFloor (q : ℚ) : ℤ := Int.fdiv q.num (q.den : ℤ)

/-- Model of JavaScript Math.round: half-way cases round toward positive
    infinity. -/
def jsRound (q : ℚ) : ℤ := ratFloor (q + 1 / 2)

/-- Model of Number.prototype.toFixed followed by parseFloat: the value
    rounded to the given number of decimal places, half-way cases toward
    positive infinity. -/
def jsToFixed (digits : ℕ) (q : ℚ) : ℚ :=
  (jsRound (q * (10 : ℚ) ^ digits) : ℚ) / (10 : ℚ) ^ digits

/-- Model of JavaScript Math.max on two numbers. -/
def jsMaxQ (a b : ℚ) : ℚ := if a ≤ b then b else a

/-- Model of JavaScript Math.max on integer-valued scores. -/
def jsMaxI (a b : ℤ) : ℤ := if a ≤ b then b else a

/-- Model of JavaScript Math.min on integer-valued scores. -/
def jsMinI (a b : ℤ) : ℤ := if a ≤ b then a else b

/-- Spreadsheet sentinel tokens denoting a missing cell. -/
def isSentinel (t : String) : Bool :=
  t == "#N/A" || t == "N/A" || t == "#VALUE!"

/-- Two-valued missingness classification of a raw field value. -/
inductive Missingness where
  | MISSING : Missingness
  | PRESENT : Missingness
deriving DecidableEq

/-- Missingness classification step shared by the SCORE_MAPPINGS normalizers
    of src/constants/index.jsx: null, undefined, a string that is empty or
    all whitespace after trimming, and the spreadsheet sentinel tokens are
    MISSING; every number (zero included) and every other string is
    PRESENT. -/
def classify : RawValue → Missingness
  | .undef => .MISSING
  | .jsNull => .MISSING
  | .num _ => .PRESENT
  | .str s =>
    if jsTrim s == "" || isSentinel (jsTrim s) then .MISSING else .PRESENT

namespace SCORE_MAPPINGS

/-- Normalizer for the commissioning year, from SCORE_MAPPINGS.cod. -/
def cod : RawValue → Option ℤ
  | .jsNull => none
  | .undef => none
  | .num q =>
    let y := jsTruncOfNum q
    some (if y < 2000 then 3 else if y ≤ 2005 then 2 else 1)
  | .str s =>
    if s == "" then none
    else if jsTrim s == "" || isSentinel (jsTrim s) then none
    else
      match jsParseInt s with
      | none => none
      | some y => some (if y < 2000 then 3 else if y ≤ 2005 then 2 else 1)

/-- Normalizer for the capacity factor, from SCORE_MAPPINGS.capacityFactor. -/
def capacityFactor : RawValue → Option ℤ
  | .jsNull => none
  | .undef => none
  | .num q => some (if q < 1 / 10 then 3 else if q ≤ 1 / 4 then 2 else 1)
  | .str s =>
    if s == "" then none
    else if jsTrim s == "" || isSentinel (jsTrim s) then none
    else
      match jsParseFloat s with
      | none => none
      | some q => some (if q < 1 / 10 then 3 else if q ≤ 1 / 4 then 2 else 1)

/-- Normalizer for the ISO/market code, from SCORE_MAPPINGS.market. A
    numeric input stringifies to digits, matches no market list and falls
    to the default tier 1. -/
def market : RawValue → Option ℤ
  | .jsNull => none
  | .undef => none
  | .num _ => some 1
  | .str s =>
    if s == "" then none
    else
      let t := jsTrim s
      if t == "" || isSentinel t then none
      else if ["PJM", "NYISO", "ISO-NE"].contains t then some 3
      else if ["MISO North", "SERC"].contains t then some 2
      else if ["SPP", "MISO South"].contains t then some 1
      else if ["ERCOT", "WECC", "CAISO"].contains t then some 0
      else some 1

/-- Normalizer for the transaction-process description, from
    SCORE_MAPPINGS.transactability: a non-string numeric input is rounded
    and clamped to the range 0 to 3; a present string is trimmed,
    lower-cased and matched against the keyword rules in order. -/
def transactability : RawValue → Option ℤ
  | .jsNull => none
  | .undef => none
  | .num q => some (jsMinI 3 (jsMaxI 0 (jsRound q)))
  | .str s =>
    if s == "" then none
    else
      let t := jsTrim s
      if t == "" || isSentinel t then none
      else
        let l := jsToLower t
        if strContains l "bilateral" && strContains l "developed" then some 3
        else if strContains l "bilateral" ||
                (strContains l "process" && strContains l "less than 10") then some 2
        else if strContains l "competitive" && strContains l "more than 10" then some 1
        else some 2

/-- Normalizer for the thermal-optimization factor, from
    SCORE_MAPPINGS.thermalOptimization: the only normalizer whose missing or
    invalid inputs default to 0 instead of none. A truthy string is matched
    against the two phrases on its lower-cased (untrimmed) form first; the
    explicit number 0 is valid; parseInt results inside 0 to 2 stand,
    everything else defaults to 0. -/
def thermalOptimization : RawValue → ℤ
  | .undef => 0
  | .jsNull => 0
  | .num q =>
    if q = 0 then 0
    else
      let n := jsTruncOfNum q
      if 0 ≤ n ∧ n ≤ 2 then n else 0
  | .str s =>
    if s != "" && strContains (jsToLower s) "readily apparent" then 2
    else if s != "" && strContains (jsToLower s) "no identifiable" then 1
    else if s == "" then 0
    else if jsTrim s == "" || isSentinel (jsTrim s) then 0
    else
      match jsParseInt s with
      | some n => if 0 ≤ n ∧ n ≤ 2 then n else 0
      | none => 0

/-- Normalizer for the environmental rating, from
    SCORE_MAPPINGS.environmental: explicit 0 is valid, otherwise parseInt
    clamped to the range 0 to 3. -/
def environmental : RawValue → Option ℤ
  | .jsNull => none
  | .undef => none
  | .num q =>
    if q = 0 then some 0
    else some (jsMinI 3 (jsMaxI 0 (jsTruncOfNum q)))
  | .str s =>
    if s == "" then none
    else if jsTrim s == "" || isSentinel (jsTrim s) then none
    else
      match jsParseInt s with
      | none => none
      | some n => some (jsMinI 3 (jsMaxI 0 n))

/-- Normalizer for the redevelopment-market rating, from
    SCORE_MAPPINGS.redevMarket: same body as environmental. -/
def redevMarket : RawValue → Option ℤ
  | .jsNull => none
  | .undef => none
  | .num q =>
    if q = 0 then some 0
    else some (jsMinI 3 (jsMaxI 0 (jsTruncOfNum q)))
  | .str s =>
    if s == "" then none
    else if jsTrim s == "" || isSentinel (jsTrim s) then none
    else
      match jsParseInt s with
      | none => none
      | some n => some (jsMinI 3 (jsMaxI 0 n))

/-- Normalizer for the infrastructure rating, from SCORE_MAPPINGS.infra:
    continuous thresholds on the parseFloat value. -/
def infra : RawValue → Option ℤ
  | .jsNull => none
  | .undef => none
  | .num q =>
    if q = 0 then some 0
    else some (if q ≥ 5 / 2 then 3 else if q ≥ 3 / 2 then 2 else if q ≥ 1 / 2 then 1 else 0)
  | .str s =>
    if s == "" then none
    else if jsTrim s == "" || isSentinel (jsTrim s) then none
    else
      match jsParseFloat s with
      | none => none
      | some q =>
        some (if q ≥ 5 / 2 then 3 else if q ≥ 3 / 2 then 2 else if q ≥ 1 / 2 then 1 else 0)

/-- Normalizer for the interconnection rating, from SCORE_MAPPINGS.ix: same
    body as infra. -/
def ix : RawValue → Option ℤ
  | .jsNull => none
  | .undef => none
  | .num q =>
    if q = 0 then some 0
    else some (if q ≥ 5 / 2 then 3 else if q ≥ 3 / 2 then 2 else if q ≥ 1 / 2 then 1 else 0)
  | .str s =>
    if s == "" then none
    else if jsTrim s == "" || isSentinel (jsTrim s) then none
    else
      match jsParseFloat s with
      | none => none
      | some q =>
        some (if q ≥ 5 / 2 then 3 else if q ≥ 3 / 2 then 2 else if q ≥ 1 / 2 then 1 else 0)

end SCORE_MAPPINGS

/-- One step of the getScore helper shared by calculateThermalScore and
    calculateRedevelopmentScore in src/utils/scoreCalculations.js: a source
    contributes its parseFloat value when it is neither undefined, null nor
    the empty string and the parse is not NaN. -/
def sourceValue : RawValue → Option ℚ
  | .undef => none
  | .jsNull => none
  | .num q => some q
  | .str s => if s == "" then none else jsParseFloat s

/-- The getScore helper: first source that yields a number, else the
    default. -/
def getScore (sources : List RawValue) (dflt : ℚ) : ℚ :=
  match sources with
  | [] => dflt
  | v :: rest =>
    match sourceValue v with
    | some q => q
    | none => getScore rest dflt

/-- Input record of calculateThermalScore: each component is read from a
    canonical key with legacy display-label fallbacks, exactly the key lists
    of the source (including the misspelled legacy label for the
    environmental score). -/
structure ThermalData where
  plant_cod : RawValue
  plantCodSpacedLabel : RawValue
  plantCodLabel : RawValue
  markets : RawValue
  marketsLabel : RawValue
  transactability_scores : RawValue
  transactabilityScoresLabel : RawValue
  thermal_optimization : RawValue
  thermalOptimizationLabel : RawValue
  environmental_score : RawValue
  envionmentalScoreLabel : RawValue
  environmentalScoreLabel : RawValue
deriving DecidableEq

/-- Model of calculateThermalScore from src/utils/scoreCalculations.js: the
    fixed-weight dot product, with defaults 0, 0, 0, 1 and 2 substituted for
    components whose every source is missing, and the thermal-optimization
    component floored at 1. The return type is a plain number: the function
    has no missing result. -/
def calculateThermalScore (data : ThermalData) : ℚ :=
  let cod := getScore [data.plant_cod, data.plantCodSpacedLabel, data.plantCodLabel] 0
  let markets := getScore [data.markets, data.marketsLabel] 0
  let transact := getScore [data.transactability_scores, data.transactabilityScoresLabel] 0
  let thermalOptRaw := getScore [data.thermal_optimization, data.thermalOptimizationLabel] 1
  let thermalOpt := jsMaxQ 1 thermalOptRaw
  let environmental :=
    getScore [data.environmental_score, data.envionmentalScoreLabel, data.environmentalScoreLabel] 2
  cod * (20 / 100) + markets * (30 / 100) + transact * (30 / 100) +
    thermalOpt * (5 / 100) + environmental * (15 / 100)

/-- Input record of calculateRedevelopmentScore, canonical keys plus legacy
    display labels. -/
structure RedevData where
  market_score : RawValue
  marketScoreLabel : RawValue
  infra : RawValue
  infraLabel : RawValue
  ix : RawValue
  ixLabel : RawValue
  co_locate_repower : RawValue
  coLocateRepowerLabel : RawValue
deriving DecidableEq

/-- JavaScript truthiness of a raw value: undefined, null, 0 and the empty
    string are falsy. -/
def isTruthy : RawValue → Bool
  | .undef => false
  | .jsNull => false
  | .num q => decide (q ≠ 0)
  | .str s => s != ""

/-- Model of toString on a raw value as used for the co-locate flag. A
    number stringifies to digits, which can never equal the flag keyword;
    the placeholder records just that. -/
def jsToStringVal : RawValue → String
  | .str s => s
  | .num _ => "1"
  | .jsNull => "null"
  | .undef => "undefined"

/-- The co-locate flag expression of calculateRedevelopmentScore: the first
    truthy of the two sources, else the empty string, stringified. -/
def coLocateString (a b : RawValue) : String :=
  if isTruthy a then jsToStringVal a
  else if isTruthy b then jsToStringVal b
  else ""

/-- Model of calculateRedevelopmentScore from src/utils/scoreCalculations.js:
    default 2 substituted for components whose every source is missing, the
    zero-guard before the weighted sum, and the 0.75 multiplier for the
    repower flag. The return type is a plain number: the function has no
    missing result. -/
def calculateRedevelopmentScore (data : RedevData) : ℚ :=
  let market := getScore [data.market_score, data.marketScoreLabel] 2
  let infraScore := getScore [data.infra, data.infraLabel] 2
  let ixScore := getScore [data.ix, data.ixLabel] 2
  let coLocate := jsTrim (jsToLower (coLocateString data.co_locate_repower data.coLocateRepowerLabel))
  let multiplier : ℚ := if coLocate == "repower" then 3 / 4 else 1
  if market = 0 ∨ infraScore = 0 ∨ ixScore = 0 then 0
  else (market * (40 / 100) + infraScore * (30 / 100) + ixScore * (30 / 100)) * multiplier

/-- The argument coercion of calculateOverallScore: parseFloat of the
    argument, with NaN (and 0 itself) collapsed to 0 by the JavaScript OR. -/
def parseFloatOr0 : RawValue → ℚ
  | .num q => q
  | .str s =>
    match jsParseFloat s with
    | some q => q
    | none => 0
  | .jsNull => 0
  | .undef => 0

/-- Model of calculateOverallScore from src/utils/scoreCalculations.js: the
    sum of the two coerced arguments. A missing (null) input is coerced to
    0, never to a missing result. -/
def calculateOverallScore (thermal redev : RawValue) : ℚ :=
  parseFloatOr0 thermal + parseFloatOr0 redev

/-- The rating branch of calculateAllScores from
    src/utils/scoreCalculations.js, applied to the raw overall number. -/
def ratingOf (overall : ℚ) : String :=
  if overall ≥ 9 / 2 then "Strong"
  else if overall ≥ 3 then "Moderate"
  else "Weak"

/-- Result record of calculateAllScores. -/
structure AllScores where
  thermal_score : ℚ
  redevelopment_score : ℚ
  overall_score : ℚ
  overall_rating : String
deriving DecidableEq

/-- Model of calculateAllScores from src/utils/scoreCalculations.js: the
    three composite scores (rounded to two decimals on return) and the
    rating taken on the unrounded overall. -/
def calculateAllScores (td : ThermalData) (rd : RedevData) : AllScores :=
  let thermal := calculateThermalScore td
  let redev := calculateRedevelopmentScore rd
  let overall := calculateOverallScore (.num thermal) (.num redev)
  ⟨jsToFixed 2 thermal, jsToFixed 2 redev, jsToFixed 2 overall, ratingOf overall⟩

/-- The display coercion of generateExpertAnalysis in src/utils/scoring.js:
    a non-null overall is rendered with toFixed(1) and parsed back; a null
    overall is rendered as the string 0.0, which parses to 0. -/
def scoreDisplayNumber : Option ℚ → ℚ
  | some q => jsToFixed 1 q
  | none => 0

/-- The rating branch of generateExpertAnalysis in src/utils/scoring.js,
    applied to the display-coerced overall: there is no Unrated outcome, a
    null overall flows through the 0.0 fallback into the Weak bucket. -/
def generateExpertAnalysisRating (overall_score : Option ℚ) : String :=
  let overallNumeric := scoreDisplayNumber overall_score
  if overallNumeric ≥ 9 / 2 then "Strong"
  else if overallNumeric ≥ 3 then "Moderate"
  else "Weak"

/-- Persisted current score state of one project. -/
structure ScoreRecord where
  thermal_score : Option ℚ
  redevelopment_score : Option ℚ
  overall_score : Option ℚ
  edited_by : String
deriving DecidableEq

/-- One immutable audit-trail snapshot. -/
structure HistoryEntry where
  record : ScoreRecord
  changes_summary : String
deriving DecidableEq

/-- Per-project persisted state: the current record and the append-only
    history. -/
structure ProjectStore where
  current : Option ScoreRecord
  history : List HistoryEntry
deriving DecidableEq

/-- The two statements the save issues inside its transaction: the
    current-record overwrite on the projects table and the
    expert_analysis_history insert. -/
inductive SaveOp where
  | writeCurrent : ScoreRecord → SaveOp
  | appendHistory : HistoryEntry → SaveOp

/-- Effect of one statement on the per-project store. -/
def applyOp (s : ProjectStore) : SaveOp → ProjectStore
  | .writeCurrent r => ⟨some r, s.history⟩
  | .appendHistory e => ⟨s.current, s.history ++ [e]⟩

/-- Modelled from the spec: the all-or-nothing transaction of the
    persistence layer (spec sections 4.4 and 5). The transaction management
    of backend/models/expertAnalysis.js is not part of the source snapshot;
    only the two statements it issues appear there. A fault injected after i
    statements, i below the statement count, aborts the transaction and the
    initial store persists (rollback); otherwise every statement applies. -/
def runTxn (s : ProjectStore) (ops : List SaveOp) (faultAfter : Option ℕ) : ProjectStore × Bool :=
  match faultAfter with
  | some i => if i < ops.length then (s, false) else (ops.foldl applyOp s, true)
  | none => (ops.foldl applyOp s, true)

/-- The saveOverride lifecycle operation: current-record overwrite then
    history append, executed as one transaction. -/
def saveOverride (s : ProjectStore) (rec : ScoreRecord) (entry : HistoryEntry)
    (faultAfter : Option ℕ) : ProjectStore × Bool :=
  runTxn s [SaveOp.writeCurrent rec, SaveOp.appendHistory entry] faultAfter

/-- One POI voltage / transmission child entry. -/
structure TransmissionEntry where
  site : String
  poi_voltage : String
deriving DecidableEq

/-- Replace of the per-project transmission child collection, from the max-5
    enforcement and the delete-then-insert rewrite of
    backend/models/expertAnalysis.js: more than 5 entries raises the
    reported error before anything is mutated (the no-partial-write rule is
    modelled from the spec), otherwise every existing entry is deleted and
    the new entries inserted. The result is the stored set after the call
    together with the reported error, if any. -/
def replaceChildEntries (stored entries : List TransmissionEntry) :
    List TransmissionEntry × Option String :=
  if entries.length > 5 then (stored, some "Maximum of 5 POI voltage entries allowed")
  else (entries, none)

/-- Model of calculateCapacitySizeScore from backend/utils/scoreCalculations.js:
    null, undefined, the empty string and a non-parsing string give null;
    otherwise 1 exactly when the parsed capacity strictly exceeds the
    threshold of 150 for a portfolio and 50 otherwise. -/
def calculateCapacitySizeScore (mw : RawValue) (isPortfolio : Bool) : Option ℤ :=
  match mw with
  | .jsNull => none
  | .undef => none
  | .num q => some (if q > (if isPortfolio then 150 else 50) then 1 else 0)
  | .str s =>
    if s == "" then none
    else
      match jsParseFloat s with
      | none => none
      | some q => some (if q > (if isPortfolio then 150 else 50) then 1 else 0)

/-- Claim C1 (code_bug evidence): with every component source missing,
    calculateThermalScore does not propagate missingness. It substitutes the
    defaults 0, 0, 0, 1 and 2, floors the thermal-optimization default at 1
    and returns the plain number 0.35, although the module documentation
    promises a null result when any required input is missing. -/
theorem calculateThermalScore_all_missing :
    calculateThermalScore
      ⟨.undef, .undef, .undef, .undef, .undef, .undef,
       .undef, .undef, .undef, .undef, .undef, .undef⟩ = 7 / 20 := by
  simp only [calculateThermalScore, getScore, sourceValue, jsMaxQ]
  norm_num

/-- Claim C2 (code_bug evidence): with market, infra and ix all missing,
    calculateRedevelopmentScore substitutes the default 2 for each and
    returns the plain number 2, although the module documentation promises a
    null result when any required input is missing. -/
theorem calculateRedevelopmentScore_all_missing :
    calculateRedevelopmentScore
      ⟨.undef, .undef, .undef, .undef, .undef, .undef, .undef, .undef⟩ = 2 := by
  simp only [calculateRedevelopmentScore, getScore, sourceValue]
  rw [show (jsTrim (jsToLower (coLocateString .undef .undef)) == "repower") = false from rfl]
  norm_num

/-- Claim C3 (code_bug evidence): calculateOverallScore substitutes 0 for a
    missing input instead of propagating missingness: a null thermal with a
    present redevelopment of 2 yields the plain number 2 and a present
    thermal of 1.95 with a null redevelopment yields 1.95, although the
    module documentation promises a null result when either input is null. -/
theorem calculateOverallScore_substitutes_zero :
    calculateOverallScore .jsNull (.num 2) = 2 ∧
    calculateOverallScore (.num (39 / 20)) .jsNull = 39 / 20 := by
  constructor <;> simp [calculateOverallScore, parseFloatOr0]

/-- Claim C7 counterexample: a missing overall score is not rated Unrated.
    The generateExpertAnalysis path folds the null overall into the display
    string 0.0, parses it back to 0 and rates it Weak; no Unrated outcome
    exists in the code. -/
theorem rating_missing_not_unrated :
    generateExpertAnalysisRating none = "Weak" ∧
    ¬ generateExpertAnalysisRating none = "Unrated" := by
  constructor
  · simp [generateExpertAnalysisRating, scoreDisplayNumber]
    norm_num
  · simp only [generateExpertAnalysisRating, scoreDisplayNumber]
    norm_num
    decide

/-- Claim C7 (amended): the rating is Strong when the overall is at least
    4.5 and Moderate when it is at least 3.0 and below 4.5; a missing
    overall is folded into the 0.0 display fallback and rated Weak, there
    being no Unrated outcome. -/
theorem rating_thresholds :
    (∀ q : ℚ, 9 / 2 ≤ q → ratingOf q = "Strong") ∧
    (∀ q : ℚ, 3 ≤ q → q < 9 / 2 → ratingOf q = "Moderate") ∧
    (∀ q : ℚ, q < 3 → ratingOf q = "Weak") ∧
    generateExpertAnalysisRating none = "Weak" := by
  refine ⟨?_, ?_, ?_, by simp [generateExpertAnalysisRating, scoreDisplayNumber] ; norm_num⟩
  · intro q h
    unfold ratingOf
    rw [if_pos h]
  · intro q h1 h2
    unfold ratingOf
    rw [if_neg (not_le.mpr h2), if_pos h1]
  · intro q h
    unfold ratingOf
    rw [if_neg (not_le.mpr (lt_trans h (by norm_num))), if_neg (not_le.mpr h)]

/-- Witness for the amended C7 at concrete overall scores. -/
theorem rating_thresholds_witness :
    ratingOf 5 = "Strong" ∧ ratingOf 4 = "Moderate" ∧ ratingOf 0 = "Weak" :=
  ⟨rating_thresholds.1 5 (by norm_num), rating_thresholds.2.1 4 (by norm_num) (by norm_num),
   rating_thresholds.2.2.1 0 (by norm_num)⟩

/-- Claim C8: the saveOverride transaction is atomic per project. A storage
    fault injected after the current-record write and before the history
    append rolls the transaction back, so the original store persists and
    neither change applies; a fault-free run applies both. -/
theorem saveOverride_atomic :
    (∀ (s : ProjectStore) (rec : ScoreRecord) (entry : HistoryEntry),
      saveOverride s rec entry (some 1) = (s, false)) ∧
    (∀ (s : ProjectStore) (rec : ScoreRecord) (entry : HistoryEntry),
      saveOverride s rec entry none = (⟨some rec, s.history ++ [entry]⟩, true)) :=
  ⟨fun _ _ _ => rfl, fun _ _ _ => rfl⟩

/-- Claim C9: the child-collection replace rejects more than 5 entries with
    the reported error and leaves the stored set unchanged; otherwise the
    new set replaces the old set wholesale, and the empty replacement set is
    accepted and leaves zero stored entries. -/
theorem replaceChildEntries_spec :
    (∀ stored entries : List TransmissionEntry, 5 < entries.length →
      replaceChildEntries stored entries =
        (stored, some "Maximum of 5 POI voltage entries allowed")) ∧
    (∀ stored entries : List TransmissionEntry, entries.length ≤ 5 →
      replaceChildEntries stored entries = (entries, none)) ∧
    (∀ stored : List TransmissionEntry, replaceChildEntries stored [] = ([], none)) := by
  refine ⟨?_, ?_, fun _ => rfl⟩
  · intro stored entries h
    unfold replaceChildEntries
    rw [if_pos h]
  · intro stored entries h
    unfold replaceChildEntries
    rw [if_neg (Nat.not_lt.mpr h)]

/-- Sample transmission entry used by the C9 witness. -/
def sampleEntry : TransmissionEntry := ⟨"Site A", "345 kV"⟩

/-- Witness for C9: a 6-element replacement is rejected and keeps the stored
    set; the empty replacement clears it. -/
theorem replaceChildEntries_spec_witness :
    replaceChildEntries [sampleEntry]
        [sampleEntry, sampleEntry, sampleEntry, sampleEntry, sampleEntry, sampleEntry] =
      ([sampleEntry], some "Maximum of 5 POI voltage entries allowed") ∧
    replaceChildEntries [sampleEntry] [] = ([], none) :=
  ⟨replaceChildEntries_spec.1 _ _ (by decide), replaceChildEntries_spec.2.2 _⟩

/-- Claim C10: calculateCapacitySizeScore returns null for a null,
    undefined, empty or non-parsing capacity and otherwise scores 1 exactly
    when the parsed capacity strictly exceeds the threshold (150 for a
    portfolio, 50 otherwise); the boundary capacities 50 and 150 score 0. -/
theorem calculateCapacitySizeScore_spec :
    (∀ b, calculateCapacitySizeScore .jsNull b = none) ∧
    (∀ b, calculateCapacitySizeScore .undef b = none) ∧
    (∀ b, calculateCapacitySizeScore (.str "") b = none) ∧
    (∀ (s : String) (b : Bool), jsParseFloat s = none →
      calculateCapacitySizeScore (.str s) b = none) ∧
    (∀ (q : ℚ) (b : Bool), calculateCapacitySizeScore (.num q) b =
      some (if q > (if b then 150 else 50) then 1 else 0)) ∧
    (∀ (s : String) (q : ℚ) (b : Bool), jsParseFloat s = some q →
      calculateCapacitySizeScore (.str s) b =
        some (if q > (if b then 150 else 50) then 1 else 0)) ∧
    calculateCapacitySizeScore (.num 50) false = some 0 ∧
    calculateCapacitySizeScore (.num 150) true = some 0 := by
  refine ⟨fun _ => rfl, fun _ => rfl, fun _ => rfl, ?_, fun _ _ => rfl, ?_, by decide, by decide⟩
  · intro s b h
    cases hse : (s == "") with
    | true => simp [calculateCapacitySizeScore, hse]
    | false => simp [calculateCapacitySizeScore, hse, h]
  · intro s q b h
    cases hse : (s == "") with
    | true =>
      have hs : s = "" := by simpa using hse
      subst hs
      rw [show jsParseFloat "" = none from rfl] at h
      exact Option.noConfusion h
    | false => simp [calculateCapacitySizeScore, hse, h]

/-- Witness for C10: a non-numeric capacity string is null, a numeric string
    above the individual threshold scores 1. -/
theorem calculateCapacitySizeScore_spec_witness :
    calculateCapacitySizeScore (.str "TBD") false = none ∧
    calculateCapacitySizeScore (.str "62") false = some 1 := by
  have hp : jsParseFloat "62" = some 62 := by
    have h1 : dropLeadingWS (String.data "62") = ['6', '2'] := by decide
    have h2 : takeSign ['6', '2'] = (false, ['6', '2']) := by decide
    have h3 : takeDigits ['6', '2'] = (62, 2, []) := by decide
    simp only [jsParseFloat, h1, h2, h3]
    norm_num
  refine ⟨calculateCapacitySizeScore_spec.2.2.2.1 "TBD" false rfl, ?_⟩
  rw [calculateCapacitySizeScore_spec.2.2.2.2.2.1 "62" 62 false hp]
  norm_num

/-- Claim C4: the missingness classifier (total by construction, it never
    raises) returns PRESENT for the numeric 0 and MISSING for undefined,
    null, every string whose trimmed form is empty, and each of the three
    spreadsheet sentinel tokens. -/
theorem classify_spec :
    classify (.num 0) = .PRESENT ∧
    classify .undef = .MISSING ∧
    classify .jsNull = .MISSING ∧
    (∀ s : String, jsTrim s = "" → classify (.str s) = .MISSING) ∧
    classify (.str "#N/A") = .MISSING ∧
    classify (.str "N/A") = .MISSING ∧
    classify (.str "#VALUE!") = .MISSING := by
  refine ⟨rfl, rfl, rfl, ?_, by decide, by decide, by decide⟩
  intro s h
  simp [classify, h]

/-- Witness for C4 at an all-whitespace string. -/
theorem classify_spec_witness :
    jsTrim "   " = "" ∧ classify (.str "   ") = .MISSING :=
  ⟨rfl, classify_spec.2.2.2.1 "   " rfl⟩

/-- Characters of a successful head match of the needle all occur in the
    haystack. -/
theorem leadsWith_subset (needle hay : List Char) (h : leadsWith needle hay = true) :
    ∀ c ∈ needle, c ∈ hay := by
  induction needle generalizing hay with
  | nil => intro c hc; cases hc
  | cons a as ih =>
    cases hay with
    | nil => simp [leadsWith] at h
    | cons b bs =>
      simp only [leadsWith, Bool.and_eq_true, beq_iff_eq] at h
      intro c hc
      rcases List.mem_cons.mp hc with rfl | hc
      · rw [h.1]; exact List.mem_cons_self _ _
      · exact List.mem_cons_of_mem _ (ih bs h.2 c hc)

/-- Characters of a contained needle all occur in the haystack. -/
theorem hasSubList_subset (hay needle : List Char) (h : hasSubList hay needle = true) :
    ∀ c ∈ needle, c ∈ hay := by
  induction hay with
  | nil =>
    intro c hc
    cases needle with
    | nil => cases hc
    | cons x xs => simp [hasSubList] at h
  | cons hd tl ih =>
    simp only [hasSubList, Bool.or_eq_true] at h
    rcases h with h | h
    · exact leadsWith_subset _ _ h
    · intro c hc
      exact List.mem_cons_of_mem _ (ih h c hc)

/-- Characters of a contained pattern all occur in the searched string. -/
theorem strContains_subset {s pat : String} (h : strContains s pat = true) :
    ∀ c ∈ pat.data, c ∈ s.data :=
  hasSubList_subset _ _ h

/-- A character of a list is whitespace or survives the leading-whitespace
    drop. -/
theorem mem_dropLeadingWS_or (l : List Char) (c : Char) (hc : c ∈ l) :
    isWS c = true ∨ c ∈ dropLeadingWS l := by
  induction l with
  | nil => cases hc
  | cons a as ih =>
    by_cases ha : isWS a = true
    · rcases List.mem_cons.mp hc with rfl | hmem
      · exact Or.inl ha
      · rcases ih hmem with hw | hm
        · exact Or.inl hw
        · right; simpa [dropLeadingWS, ha] using hm
    · right
      simpa [dropLeadingWS, ha] using hc

/-- A character of a string is whitespace or occurs in the trimmed string. -/
theorem mem_trim_or_ws (s : String) (c : Char) (hc : c ∈ s.data) :
    isWS c = true ∨ c ∈ (jsTrim s).data := by
  rcases mem_dropLeadingWS_or _ _ hc with h | h
  · exact Or.inl h
  · have h2 : c ∈ (dropLeadingWS s.data).reverse := List.mem_reverse.mpr h
    rcases mem_dropLeadingWS_or _ _ h2 with h3 | h3
    · exact Or.inl h3
    · exact Or.inr (List.mem_reverse.mpr h3)

/-- Lower-casing fixes whitespace characters. -/
theorem lowerChar_ws {c : Char} (h : isWS c = true) : lowerChar c = c := by
  have hc : ((c = ' ' ∨ c = '\t') ∨ c = '\n') ∨ c = '\r' := by
    simpa [isWS, Bool.or_eq_true, beq_iff_eq] using h
  rcases hc with ((rfl | rfl) | rfl) | rfl <;> decide

/-- A keyword containing the letter i cannot occur in a string that is
    missing-classified, that is, whose trimmed form is empty or one of the
    sentinel tokens: such a string holds only whitespace and sentinel
    characters, and neither set lowers to an i. -/
theorem missing_string_no_keyword (s : String)
    (h : jsTrim s = "" ∨ isSentinel (jsTrim s) = true)
    (pat : String) (hi : 'i' ∈ pat.data) :
    strContains (jsToLower s) pat = false := by
  rw [← Bool.not_eq_true]
  intro hcon
  have hmem : 'i' ∈ (jsToLower s).data := strContains_subset hcon 'i' hi
  simp only [jsToLower, List.mem_map] at hmem
  rcases hmem with ⟨c0, hc0, hlc⟩
  rcases mem_trim_or_ws s c0 hc0 with hws | hmemtrim
  · rw [lowerChar_ws hws] at hlc
    rw [hlc] at hws
    exact absurd hws (by decide)
  · have hmem2 : 'i' ∈ (jsToLower (jsTrim s)).data := by
      simp only [jsToLower, List.mem_map]
      exact ⟨c0, hmemtrim, hlc⟩
    rcases h with he | hs
    · rw [he] at hmem2
      exact absurd hmem2 (by decide)
    · have hsent : ((jsTrim s = "#N/A" ∨ jsTrim s = "N/A") ∨ jsTrim s = "#VALUE!") := by
        simpa [isSentinel, Bool.or_eq_true, beq_iff_eq] using hs
      rcases hsent with (ht | ht) | ht <;> rw [ht] at hmem2 <;> exact absurd hmem2 (by decide)

/-- Claim C5: every normalizer except thermal-optimization maps a
    missing-classified input to the missing sub-score none, while
    thermal-optimization maps a missing-classified input to 0; moreover
    thermal-optimization maps text containing the phrase readily apparent
    to 2, text containing no identifiable (and not the former phrase, which
    the source checks first) to 1, an explicit integer between 0 and 2 to
    itself, and an integer outside that range to 0. -/
theorem normalizer_missing_policy :
    (∀ v : RawValue, classify v = .MISSING →
      SCORE_MAPPINGS.cod v = none ∧
      SCORE_MAPPINGS.capacityFactor v = none ∧
      SCORE_MAPPINGS.market v = none ∧
      SCORE_MAPPINGS.transactability v = none ∧
      SCORE_MAPPINGS.environmental v = none ∧
      SCORE_MAPPINGS.redevMarket v = none ∧
      SCORE_MAPPINGS.infra v = none ∧
      SCORE_MAPPINGS.ix v = none ∧
      SCORE_MAPPINGS.thermalOptimization v = 0) ∧
    (∀ s : String, strContains (jsToLower s) "readily apparent" = true →
      SCORE_MAPPINGS.thermalOptimization (.str s) = 2) ∧
    (∀ s : String, strContains (jsToLower s) "readily apparent" = false →
      strContains (jsToLower s) "no identifiable" = true →
      SCORE_MAPPINGS.thermalOptimization (.str s) = 1) ∧
    (∀ n : ℤ, 0 ≤ n → n ≤ 2 →
      SCORE_MAPPINGS.thermalOptimization (.num (n : ℚ)) = n) ∧
    (∀ n : ℤ, n < 0 ∨ 2 < n →
      SCORE_MAPPINGS.thermalOptimization (.num (n : ℚ)) = 0) := by
  refine ⟨?_, ?_, ?_, ?_, ?_⟩
  · intro v h
    cases v with
    | undef => exact ⟨rfl, rfl, rfl, rfl, rfl, rfl, rfl, rfl, rfl⟩
    | jsNull => exact ⟨rfl, rfl, rfl, rfl, rfl, rfl, rfl, rfl, rfl⟩
    | num q => simp [classify] at h
    | str s =>
      cases hb : (jsTrim s == "" || isSentinel (jsTrim s)) with
      | false => simp [classify, hb] at h
      | true =>
        have hor : jsTrim s = "" ∨ isSentinel (jsTrim s) = true := by
          simpa [Bool.or_eq_true, beq_iff_eq] using hb
        have hk1 : strContains (jsToLower s) "readily apparent" = false :=
          missing_string_no_keyword s hor _ (by decide)
        have hk2 : strContains (jsToLower s) "no identifiable" = false :=
          missing_string_no_keyword s hor _ (by decide)
        by_cases hse : s = ""
        · subst hse
          exact ⟨rfl, rfl, rfl, rfl, rfl, rfl, rfl, rfl, by decide⟩
        · have hbe : (s == "") = false := beq_eq_false_iff_ne.mpr hse
          refine ⟨?_, ?_, ?_, ?_, ?_, ?_, ?_, ?_, ?_⟩
          · simp [SCORE_MAPPINGS.cod, hbe, hb]
          · simp [SCORE_MAPPINGS.capacityFactor, hbe, hb]
          · simp [SCORE_MAPPINGS.market, hbe, hb]
          · simp [SCORE_MAPPINGS.transactability, hbe, hb]
          · simp [SCORE_MAPPINGS.environmental, hbe, hb]
          · simp [SCORE_MAPPINGS.redevMarket, hbe, hb]
          · simp [SCORE_MAPPINGS.infra, hbe, hb]
          · simp [SCORE_MAPPINGS.ix, hbe, hb]
          · simp [SCORE_MAPPINGS.thermalOptimization, hbe, hb, hk1, hk2]
  · intro s h
    have hne : s ≠ "" := by
      intro he
      subst he
      exact absurd h (by decide)
    have hbe : (s == "") = false := beq_eq_false_iff_ne.mpr hne
    simp [SCORE_MAPPINGS.thermalOptimization, hbe, hne, h]
  · intro s h1 h2
    have hne : s ≠ "" := by
      intro he
      subst he
      exact absurd h2 (by decide)
    have hbe : (s == "") = false := beq_eq_false_iff_ne.mpr hne
    simp [SCORE_MAPPINGS.thermalOptimization, hbe, hne, h1, h2]
  · intro n h0 h2
    by_cases hz : (n : ℚ) = 0
    · have hn0 : n = 0 := by exact_mod_cast hz
      subst hn0
      simp [SCORE_MAPPINGS.thermalOptimization]
    · have ht : jsTruncOfNum (n : ℚ) = n := by
        simp [jsTruncOfNum, Rat.num_intCast, Rat.den_intCast]
      simp only [SCORE_MAPPINGS.thermalOptimization]
      rw [if_neg hz, ht, if_pos ⟨h0, h2⟩]
  · intro n hn
    have hz : (n : ℚ) ≠ 0 := by
      have : n ≠ 0 := by omega
      exact_mod_cast this
    have ht : jsTruncOfNum (n : ℚ) = n := by
      simp [jsTruncOfNum, Rat.num_intCast, Rat.den_intCast]
    simp only [SCORE_MAPPINGS.thermalOptimization]
    rw [if_neg hz, ht, if_neg (by omega)]

/-- Witness for C5 at concrete missing, phrase and integer inputs. -/
theorem normalizer_missing_policy_witness :
    SCORE_MAPPINGS.cod .jsNull = none ∧
    SCORE_MAPPINGS.thermalOptimization .jsNull = 0 ∧
    SCORE_MAPPINGS.thermalOptimization (.str "Synergies readily apparent") = 2 ∧
    SCORE_MAPPINGS.thermalOptimization (.str "No identifiable synergies") = 1 ∧
    SCORE_MAPPINGS.thermalOptimization (.num ((2 : ℤ) : ℚ)) = 2 ∧
    SCORE_MAPPINGS.thermalOptimization (.num ((5 : ℤ) : ℚ)) = 0 :=
  ⟨(normalizer_missing_policy.1 .jsNull rfl).1,
   (normalizer_missing_policy.1 .jsNull rfl).2.2.2.2.2.2.2.2,
   normalizer_missing_policy.2.1 _ (by decide),
   normalizer_missing_policy.2.2.1 _ (by decide) (by decide),
   normalizer_missing_policy.2.2.2.1 2 (by norm_num) (by norm_num),
   normalizer_missing_policy.2.2.2.2 5 (by norm_num)⟩

/-- Claim C6: on a present free-text transactability input (trimmed,
    lower-cased), containing both bilateral and developed yields 3;
    otherwise containing bilateral, or containing both process and less
    than 10, yields 2 — the or binding as bilateral OR (process AND less
    than 10); otherwise containing both competitive and more than 10 yields
    1; any other present text yields the default 2. A numeric input is
    rounded and clamped to the range 0 to 3. The final conjunct fixes the
    precedence on a concrete input that the other grouping would send to
    the competitive rule instead. -/
theorem transactability_keyword_rules :
    (∀ s : String, (jsTrim s == "" || isSentinel (jsTrim s)) = false →
      strContains (jsToLower (jsTrim s)) "bilateral" = true →
      strContains (jsToLower (jsTrim s)) "developed" = true →
      SCORE_MAPPINGS.transactability (.str s) = some 3) ∧
    (∀ s : String, (jsTrim s == "" || isSentinel (jsTrim s)) = false →
      (strContains (jsToLower (jsTrim s)) "bilateral" &&
        strContains (jsToLower (jsTrim s)) "developed") = false →
      (strContains (jsToLower (jsTrim s)) "bilateral" ||
        (strContains (jsToLower (jsTrim s)) "process" &&
          strContains (jsToLower (jsTrim s)) "less than 10")) = true →
      SCORE_MAPPINGS.transactability (.str s) = some 2) ∧
    (∀ s : String, (jsTrim s == "" || isSentinel (jsTrim s)) = false →
      (strContains (jsToLower (jsTrim s)) "bilateral" &&
        strContains (jsToLower (jsTrim s)) "developed") = false →
      (strContains (jsToLower (jsTrim s)) "bilateral" ||
        (strContains (jsToLower (jsTrim s)) "process" &&
          strContains (jsToLower (jsTrim s)) "less than 10")) = false →
      (strContains (jsToLower (jsTrim s)) "competitive" &&
        strContains (jsToLower (jsTrim s)) "more than 10") = true →
      SCORE_MAPPINGS.transactability (.str s) = some 1) ∧
    (∀ s : String, (jsTrim s == "" || isSentinel (jsTrim s)) = false →
      (strContains (jsToLower (jsTrim s)) "bilateral" &&
        strContains (jsToLower (jsTrim s)) "developed") = false →
      (strContains (jsToLower (jsTrim s)) "bilateral" ||
        (strContains (jsToLower (jsTrim s)) "process" &&
          strContains (jsToLower (jsTrim s)) "less than 10")) = false →
      (strContains (jsToLower (jsTrim s)) "competitive" &&
        strContains (jsToLower (jsTrim s)) "more than 10") = false →
      SCORE_MAPPINGS.transactability (.str s) = some 2) ∧
    (∀ q : ℚ, SCORE_MAPPINGS.transactability (.num q) =
      some (jsMinI 3 (jsMaxI 0 (jsRound q)))) ∧
    SCORE_MAPPINGS.transactability
      (.str "Bilateral talks; competitive process, more than 10 parties") = some 2 := by
  refine ⟨?_, ?_, ?_, ?_, fun _ => rfl, by decide⟩ <;> intro s hp
  · intro h1 h2
    have hne : s ≠ "" := by
      intro he
      subst he
      exact absurd hp (by decide)
    have hbe : (s == "") = false := beq_eq_false_iff_ne.mpr hne
    simp [SCORE_MAPPINGS.transactability, hbe, hp, h1, h2]
  · intro hA hB
    have hne : s ≠ "" := by
      intro he
      subst he
      exact absurd hp (by decide)
    have hbe : (s == "") = false := beq_eq_false_iff_ne.mpr hne
    simp [SCORE_MAPPINGS.transactability, hbe, hp, hA, hB]
  · intro hA hB hC
    have hne : s ≠ "" := by
      intro he
      subst he
      exact absurd hp (by decide)
    have hbe : (s == "") = false := beq_eq_false_iff_ne.mpr hne
    simp [SCORE_MAPPINGS.transactability, hbe, hp, hA, hB, hC]
  · intro hA hB hC
    have hne : s ≠ "" := by
      intro he
      subst he
      exact absurd hp (by decide)
    have hbe : (s == "") = false := beq_eq_false_iff_ne.mpr hne
    simp [SCORE_MAPPINGS.transactability, hbe, hp, hA, hB, hC]

/-- Witness for C6 at one concrete string per keyword rule and one numeric
    input. -/
theorem transactability_keyword_rules_witness :
    SCORE_MAPPINGS.transactability (.str "Bilateral agreement fully developed") = some 3 ∧
    SCORE_MAPPINGS.transactability (.str "Exclusive bilateral negotiation") = some 2 ∧
    SCORE_MAPPINGS.transactability (.str "Competitive auction with more than 10 bidders") = some 1 ∧
    SCORE_MAPPINGS.transactability (.str "Quarterly sale") = some 2 :=
  ⟨transactability_keyword_rules.1 _ (by decide) (by decide) (by decide),
   transactability_keyword_rules.2.1 _ (by decide) (by decide) (by decide),
   transactability_keyword_rules.2.2.1 _ (by decide) (by decide) (by decide) (by decide),
   transactability_keyword_rules.2.2.2.1 _ (by decide) (by decide) (by decide) (by decide)⟩
